import Mathlib

/-!
Verification of the ai-stack gateway and backend stubs.

Shallow embedding of:
- src/gateway/src/main.rs (API gateway: routing, forwarding, response translation)
- src/llm-node/src/main.rs (chat stub: find_last_user_message)
- src/tts-node/src/main.rs (TTS stub: tts_handler format dispatch)

Machine integers (HTTP status codes, body bytes) are modelled as Nat.
Fallible operations return Option. Serde JSON values are modelled as a tree.
-/

namespace AiStack

/-! ## Data model (section 3 of the design; structs in src/gateway/src/main.rs lines 14-36) -/

/-- Embeds struct ChatMessage (gateway main.rs lines 20-24 and llm-node main.rs lines 15-19):
role and content strings. -/
structure ChatMessage where
  role : String
  content : String
deriving DecidableEq, Repr

/-- Embeds struct ChatCompletionRequest (gateway main.rs lines 14-18): model name and
ordered message list. -/
structure ChatCompletionRequest where
  model : String
  messages : List ChatMessage
deriving DecidableEq, Repr

/-- Embeds struct TtsRequest (gateway main.rs lines 26-31, also called SpeechRequest in the
design): input text plus optional voice and format. -/
structure TtsRequest where
  input : String
  voice : Option String
  format : Option String
deriving DecidableEq, Repr

/-- Embeds struct ErrorResponse (gateway main.rs lines 33-36): a single diagnostic string. -/
structure ErrorResponse where
  error : String
deriving DecidableEq, Repr

/-! ## JSON values and serde-derived codecs

Serde's derived Serialize/Deserialize are modelled at the JSON-value level: a struct
serializes to an object listing its fields in declaration order; Option fields serialize
to null when None; the derived deserializer looks fields up by name and accepts a missing
or null value for an Option field. -/

/-- JSON value tree (the image of serde_json serialization for the types above). -/
inductive Json where
  | null
  | str (s : String)
  | num (n : Int)
  | arr (elems : List Json)
  | obj (fields : List (String × Json))

/-- Field lookup in a serialized object: first binding of the key, as serde's derived
deserializer sees it. -/
def lookupField : List (String × Json) → String → Option Json
  | [], _ => none
  | (k, v) :: rest, key => if k == key then some v else lookupField rest key

/-- Field access on a JSON value: only objects have fields. -/
def Json.getField : Json → String → Option Json
  | .obj fields, key => lookupField fields key
  | _, _ => none

def ChatMessage.toJson (m : ChatMessage) : Json :=
  .obj [("role", .str m.role), ("content", .str m.content)]

def ChatCompletionRequest.toJson (r : ChatCompletionRequest) : Json :=
  .obj [("model", .str r.model), ("messages", .arr (r.messages.map ChatMessage.toJson))]

/-- Serialization of an Option<String> field: serde emits null for None. -/
def optStrToJson : Option String → Json
  | none => .null
  | some s => .str s

def TtsRequest.toJson (r : TtsRequest) : Json :=
  .obj [("input", .str r.input), ("voice", optStrToJson r.voice), ("format", optStrToJson r.format)]

def ErrorResponse.toJson (e : ErrorResponse) : Json :=
  .obj [("error", .str e.error)]

def ChatMessage.fromJson (j : Json) : Option ChatMessage :=
  match j.getField "role", j.getField "content" with
  | some (.str r), some (.str c) => some ⟨r, c⟩
  | _, _ => none

/-- Element-wise decoding of a JSON array of messages; fails if any element fails. -/
def decodeMessages : List Json → Option (List ChatMessage)
  | [] => some []
  | j :: rest =>
    match ChatMessage.fromJson j, decodeMessages rest with
    | some m, some ms => some (m :: ms)
    | _, _ => none

def ChatCompletionRequest.fromJson (j : Json) : Option ChatCompletionRequest :=
  match j.getField "model", j.getField "messages" with
  | some (.str m), some (.arr xs) =>
    match decodeMessages xs with
    | some msgs => some ⟨m, msgs⟩
    | none => none
  | _, _ => none

/-- Deserialization of an Option<String> field: absent and null both decode to None,
a string decodes to Some, anything else is rejected. -/
def decodeOptStr : Option Json → Option (Option String)
  | none => some none
  | some .null => some none
  | some (.str s) => some (some s)
  | some _ => none

def TtsRequest.fromJson (j : Json) : Option TtsRequest :=
  match j.getField "input" with
  | some (.str i) =>
    match decodeOptStr (j.getField "voice"), decodeOptStr (j.getField "format") with
    | some v, some f => some ⟨i, v, f⟩
    | _, _ => none
  | _ => none

/-- Modelled from the spec: ErrorResponse derives only Serialize in the source (gateway
main.rs line 33), so no deserializer exists in the repository; the spec's round-trip
property (section 8) needs one. This is the serde-derived deserializer the struct would
have: an object with a string field named error. -/
def ErrorResponse.fromJson (j : Json) : Option ErrorResponse :=
  match j.getField "error" with
  | some (.str s) => some ⟨s⟩
  | _ => none

/-! ## Byte-level serialization of the error body

The gateway's transport-failure branch calls serde_json::to_vec(&error) (main.rs lines
110 and 152), producing the UTF-8 bytes of the compact JSON text. Escaping follows
serde_json: quote and backslash get two-character escapes, the named control escapes
are used where they exist, remaining control characters use the \u00XX form. -/

/-- Lowercase hex digit for the \u00XX escapes. -/
def hexDigit (n : Nat) : Char :=
  if n < 10 then Char.ofNat (48 + n) else Char.ofNat (87 + n)

/-- serde_json escaping of one character inside a JSON string literal. -/
def escapeChar (c : Char) : String :=
  if c = '"' then "\\\""
  else if c = '\\' then "\\\\"
  else if c.toNat = 8 then "\\b"
  else if c.toNat = 9 then "\\t"
  else if c.toNat = 10 then "\\n"
  else if c.toNat = 12 then "\\f"
  else if c.toNat = 13 then "\\r"
  else if c.toNat < 32 then "\\u00" ++ String.mk [hexDigit (c.toNat / 16), hexDigit (c.toNat % 16)]
  else String.mk [c]

/-- JSON string literal for s, quotes included. -/
def renderJsonString (s : String) : String :=
  "\"" ++ String.join (s.toList.map escapeChar) ++ "\""

/-- Compact JSON text of a serialized ErrorResponse, as serde_json::to_string produces it. -/
def ErrorResponse.serializeString (e : ErrorResponse) : String :=
  "\x7b\"error\":" ++ renderJsonString e.error ++ "\x7d"

/-- UTF-8 encoding of one scalar value, byte list. -/
def charUtf8 (c : Char) : List Nat :=
  let n := c.toNat
  if n < 0x80 then [n]
  else if n < 0x800 then [0xC0 + n / 64, 0x80 + n % 64]
  else if n < 0x10000 then [0xE0 + n / 4096, 0x80 + (n / 64) % 64, 0x80 + n % 64]
  else [0xF0 + n / 262144, 0x80 + (n / 4096) % 64, 0x80 + (n / 64) % 64, 0x80 + n % 64]

/-- UTF-8 bytes of a string. -/
def utf8Bytes (s : String) : List Nat :=
  s.toList.flatMap charUtf8

/-- Embeds serde_json::to_vec(&error) (main.rs lines 110 and 152): the UTF-8 bytes of the
compact JSON text. Total: serializing an ErrorResponse cannot fail. -/
def ErrorResponse.serializeBytes (e : ErrorResponse) : List Nat :=
  utf8Bytes e.serializeString

/-! ## Backend Registry (section 4.1; gateway main.rs lines 45-47) -/

/-- Embeds fn get_llm_target (gateway main.rs lines 45-47): every model name routes to the
single llm-node instance. -/
def get_llm_target (_model : String) : String :=
  "http://localhost:9000/v1/chat/completions"

/-- Embeds the constant speech target (gateway main.rs line 121). -/
def speechTarget : String :=
  "http://localhost:9001/v1/audio/speech"

/-! ## Forwarding outcome and response translation (sections 4.3-4.4) -/

/-- Outcome of the single outbound call made by the Forwarding Client: either a backend
reply (numeric status, optional content-type header, raw body bytes) or a transport
error carrying reqwest's diagnostic string. -/
inductive ForwardOutcome where
  | reply (status : Nat) (contentType : Option String) (body : List Nat)
  | transportError (detail : String)
deriving DecidableEq, Repr

/-- Outbound HTTP response produced by the gateway for one request. -/
structure GatewayResponse where
  status : Nat
  contentType : String
  body : List Nat
deriving DecidableEq, Repr

/-- Embeds warp::http::StatusCode::from_u16: succeeds exactly on 100..=999. -/
def isValidStatus (n : Nat) : Bool :=
  100 ≤ n && n ≤ 999

/-- Embeds StatusCode::from_u16(status_code).unwrap_or(StatusCode::OK)
(main.rs lines 99-100 and 141-142). -/
def normalizeStatus (n : Nat) : Nat :=
  if isValidStatus n then n else 200

/-- Embeds the match on resp in handle_chat (gateway main.rs lines 95-116): on a reply,
status is normalized, content-type is the constant "application/json", body is the
backend bytes; on a transport error, 502 with the serialized ErrorResponse whose
diagnostic is prefixed "llm-node unreachable: ". -/
def translateChat : ForwardOutcome → GatewayResponse
  | .reply status _ body =>
    ⟨normalizeStatus status, "application/json", body⟩
  | .transportError detail =>
    ⟨502, "application/json", ErrorResponse.serializeBytes ⟨"llm-node unreachable: " ++ detail⟩⟩

/-- Embeds the match on resp in handle_tts (gateway main.rs lines 131-158): on a reply,
status is normalized, content-type is the backend's content-type header when present
(and readable) else "application/octet-stream", body is the backend bytes; on a
transport error, 502 with the "TTS node unreachable: " diagnostic. -/
def translateTts : ForwardOutcome → GatewayResponse
  | .reply status contentType body =>
    ⟨normalizeStatus status, contentType.getD "application/octet-stream", body⟩
  | .transportError detail =>
    ⟨502, "application/json", ErrorResponse.serializeBytes ⟨"TTS node unreachable: " ++ detail⟩⟩

/-- Embeds handle_chat (gateway main.rs lines 82-117) after the outbound call resolves to
outcome: the response depends only on the outcome, never on the decoded body. -/
def handle_chat (_body : ChatCompletionRequest) (outcome : ForwardOutcome) : GatewayResponse :=
  translateChat outcome

/-- Embeds handle_tts (gateway main.rs lines 119-159) after the outbound call resolves. -/
def handle_tts (_body : TtsRequest) (outcome : ForwardOutcome) : GatewayResponse :=
  translateTts outcome

/-- Target and serialized body of the outbound call issued by handle_chat
(gateway main.rs lines 83 and 93: client.post(target).json(&body)). -/
def chatForwardTarget (body : ChatCompletionRequest) : String :=
  get_llm_target body.model

/-- Body bytes sent to the backend by handle_chat: the serde serialization of the decoded
request, unmodified (main.rs line 93). -/
def chatForwardBody (body : ChatCompletionRequest) : Json :=
  body.toJson

/-- Response sequence for a list of chat-request outcomes: the gateway keeps no state
across requests, so each response is the translation of its own outcome. -/
def processChat (outcomes : List ForwardOutcome) : List GatewayResponse :=
  outcomes.map translateChat

/-- Response sequence for a list of speech-request outcomes. -/
def processTts (outcomes : List ForwardOutcome) : List GatewayResponse :=
  outcomes.map translateTts

/-! ## Panic model for the handlers (claim about totality)

The only potentially panicking expression reachable from a handler is
HTTP_CLIENT.get().expect("client not initialized") (main.rs lines 92 and 120); the
body-read and the error serialization both use unwrap_or_default and cannot panic.
A handler run is parameterized by whether main's one-time initialization (main.rs
lines 56-58) happened. -/

/-- Result of running a handler body: ok, or hitting a panic. -/
inductive HandlerRun (α : Type) where
  | ok (value : α)
  | panicked
deriving DecidableEq, Repr

/-- Embeds a full run of handle_chat: panics iff the shared client was never initialized,
otherwise returns the translated response. -/
def run_handle_chat (clientInitialized : Bool) (body : ChatCompletionRequest)
    (outcome : ForwardOutcome) : HandlerRun GatewayResponse :=
  if clientInitialized then .ok (handle_chat body outcome) else .panicked

/-- Embeds a full run of handle_tts. -/
def run_handle_tts (clientInitialized : Bool) (body : TtsRequest)
    (outcome : ForwardOutcome) : HandlerRun GatewayResponse :=
  if clientInitialized then .ok (handle_tts body outcome) else .panicked

/-! ## llm-node: find_last_user_message (src/llm-node/src/main.rs lines 33-43) -/

/-- Fallback message returned when no user message exists (llm-node main.rs lines 39-42). -/
def fallbackMessage : ChatMessage :=
  ⟨"user", "(no user message found)"⟩

/-- Embeds fn find_last_user_message (llm-node main.rs lines 33-43):
iterate in reverse, find the first message whose role is "user", clone it,
fall back to the fixed message. -/
def find_last_user_message (messages : List ChatMessage) : ChatMessage :=
  (messages.reverse.find? (fun m => m.role == "user")).getD fallbackMessage

/-! ## tts-node: tts_handler (src/tts-node/src/main.rs lines 22-51) -/

/-- Body of a tts-node response: either the generated sine-wave WAV bytes (the output of
generate_sine_wav(440.0, 1.0), kept abstract since no claim inspects the samples) or the
plain-text rejection. -/
inductive TtsBody where
  | audioWav
  | text (s : String)
deriving DecidableEq, Repr

/-- Outbound response of the tts-node stub. -/
structure TtsNodeResponse where
  status : Nat
  contentType : String
  body : TtsBody
deriving DecidableEq, Repr

/-- Embeds fn tts_handler (tts-node main.rs lines 22-51): format defaults to "wav" when
absent; "wav" yields 200 with Content-Type audio/wav and the generated bytes; any other
format yields 400 with a plain-text message (axum's (StatusCode, &str) responder sets
text/plain; charset=utf-8). -/
def tts_handler (req : TtsRequest) : TtsNodeResponse :=
  let format := req.format.getD "wav"
  if format = "wav" then
    ⟨200, "audio/wav", .audioWav⟩
  else
    ⟨400, "text/plain; charset=utf-8", .text "Unsupported format; only 'wav' is implemented"⟩

/-! ## Shared helper lemmas -/

/-- Round-trip for one serialized ChatMessage. -/
theorem chatMessage_roundtrip (m : ChatMessage) : ChatMessage.fromJson m.toJson = some m := rfl

/-- Round-trip for a serialized message array. -/
theorem decodeMessages_roundtrip (msgs : List ChatMessage) :
    decodeMessages (msgs.map ChatMessage.toJson) = some msgs := by
  induction msgs with
  | nil => rfl
  | cons m rest ih => simp [decodeMessages, chatMessage_roundtrip, ih]

/-- Round-trip for a serialized ChatCompletionRequest. -/
theorem chatRequest_roundtrip (r : ChatCompletionRequest) :
    ChatCompletionRequest.fromJson r.toJson = some r := by
  simp [ChatCompletionRequest.fromJson, ChatCompletionRequest.toJson, Json.getField,
    lookupField, decodeMessages_roundtrip]

/-- Round-trip for a serialized TtsRequest, all four Option-field combinations. -/
theorem ttsRequest_roundtrip (t : TtsRequest) : TtsRequest.fromJson t.toJson = some t := by
  obtain ⟨i, v, f⟩ := t
  cases v <;> cases f <;> rfl

/-- Round-trip for a serialized ErrorResponse. -/
theorem errorResponse_roundtrip (e : ErrorResponse) : ErrorResponse.fromJson e.toJson = some e :=
  rfl

/-- find? is the head of the filtered list. -/
theorem find?_eq_head?_filter {α : Type} (p : α → Bool) (l : List α) :
    l.find? p = (l.filter p).head? := by
  induction l with
  | nil => rfl
  | cons a t ih =>
    by_cases h : p a = true
    · rw [List.find?_cons_of_pos _ h, List.filter_cons_of_pos h, List.head?_cons]
    · rw [List.find?_cons_of_neg _ h, List.filter_cons_of_neg h, ih]

/-- Searching the reversed list picks out the last match of the original list. -/
theorem find?_reverse_eq_getLast?_filter {α : Type} (p : α → Bool) (l : List α) :
    l.reverse.find? p = (l.filter p).getLast? := by
  rw [find?_eq_head?_filter, List.filter_reverse, List.head?_reverse]

/-! ## Claim theorems -/

/-- Claim C1: for every backend reply (chat or speech), the outbound status equals the
backend's status code verbatim when it is a valid HTTP status (100..=999), falling back
to 200 OK exactly otherwise, and the outbound body equals the backend body unchanged; in
particular backend application errors 400 and 500 are relayed with status and body
intact, never converted into a gateway error. -/
theorem backend_reply_passthrough :
    ∀ (creq : ChatCompletionRequest) (treq : TtsRequest) (status : Nat)
      (contentType : Option String) (body : List Nat),
      (isValidStatus status = true ↔ 100 ≤ status ∧ status ≤ 999) ∧
      (handle_chat creq (.reply status contentType body)).status
        = (if isValidStatus status then status else 200) ∧
      (handle_chat creq (.reply status contentType body)).body = body ∧
      (handle_tts treq (.reply status contentType body)).status
        = (if isValidStatus status then status else 200) ∧
      (handle_tts treq (.reply status contentType body)).body = body ∧
      (handle_chat creq (.reply 400 contentType body)).status = 400 ∧
      (handle_chat creq (.reply 500 contentType body)).status = 500 ∧
      (handle_tts treq (.reply 400 contentType body)).body = body := by
  intro creq treq status contentType body
  refine ⟨?_, rfl, rfl, rfl, rfl, rfl, rfl, rfl⟩
  simp [isValidStatus]

/-- Claim C2: a transport failure on the outbound call yields exactly status 502 with
content-type application/json and body the serialized ErrorResponse whose error field is
the diagnostic string prefixed with the backend name ("llm-node unreachable: " for chat,
"TTS node unreachable: " for speech); the detail is carried verbatim and the error field
is non-empty, given that the transport diagnostic itself is non-empty. -/
theorem transport_error_bad_gateway (detail : String) (hd : detail ≠ "") :
    ∀ (creq : ChatCompletionRequest) (treq : TtsRequest),
      handle_chat creq (.transportError detail)
        = ⟨502, "application/json",
            ErrorResponse.serializeBytes ⟨"llm-node unreachable: " ++ detail⟩⟩ ∧
      handle_tts treq (.transportError detail)
        = ⟨502, "application/json",
            ErrorResponse.serializeBytes ⟨"TTS node unreachable: " ++ detail⟩⟩ ∧
      "llm-node unreachable: " ++ detail ≠ "" ∧
      "TTS node unreachable: " ++ detail ≠ "" ∧
      detail ≠ "" := by
  intro creq treq
  refine ⟨rfl, rfl, ?_, ?_, hd⟩ <;>
  · intro hcontra
    have hlen := congrArg String.length hcontra
    simp [String.length_append] at hlen
    exact absurd hlen.1 (by decide)

/-- Closed instance of transport_error_bad_gateway: a concrete diagnostic is relayed as
a 502 with the prefixed JSON error body. -/
theorem transport_error_bad_gateway_witness :
    "connection refused" ≠ "" ∧
    handle_chat ⟨"qwen3-8b-instruct", []⟩ (.transportError "connection refused")
      = ⟨502, "application/json",
          ErrorResponse.serializeBytes ⟨"llm-node unreachable: connection refused"⟩⟩ :=
  ⟨by decide,
   (transport_error_bad_gateway "connection refused" (by decide)
      ⟨"qwen3-8b-instruct", []⟩ ⟨"hi", none, none⟩).1⟩

/-- Claim C3: chat target resolution is a total, deterministic constant function: every
model name maps to the single default backend target, and no model name yields a
different target or a failure. -/
theorem get_llm_target_total_constant :
    ∀ m : String, get_llm_target m = "http://localhost:9000/v1/chat/completions" ∧
      ∀ m₂ : String, get_llm_target m = get_llm_target m₂ :=
  fun _ => ⟨rfl, fun _ => rfl⟩

/-- Claim C4 as stated is false on the chat handler: for a backend reply whose
content-type header is present and equal to text/plain, the chat handler's outbound
content-type is not that header value (it is hardcoded to application/json at gateway
main.rs line 102). -/
theorem chat_content_type_not_passthrough :
    ¬ (handle_chat ⟨"m", []⟩ (.reply 200 (some "text/plain") [])).contentType
        = "text/plain" := by
  decide

/-- Claim C4 amended: the speech handler's outbound content-type equals the backend's
content-type when present and the default application/octet-stream otherwise, while the
chat handler's outbound content-type is always application/json regardless of the
backend's content-type header. -/
theorem content_type_translation :
    ∀ (creq : ChatCompletionRequest) (treq : TtsRequest) (status : Nat) (body : List Nat),
      (∀ contentType : Option String,
        (handle_chat creq (.reply status contentType body)).contentType
          = "application/json") ∧
      (∀ c : String, (handle_tts treq (.reply status (some c) body)).contentType = c) ∧
      (handle_tts treq (.reply status none body)).contentType
        = "application/octet-stream" :=
  fun _ _ _ _ => ⟨fun _ => rfl, fun _ => rfl, rfl⟩

/-- Claim C5: the Response Translator is pure and deterministic — equal forwarding
outcomes yield equal outbound responses for each request type — and processing a
sequence of requests accumulates no hidden state: responses distribute over
concatenation of request sequences, and n repetitions of the same outcome yield n
copies of the same response. -/
theorem translator_pure_stateless :
    (∀ o₁ o₂ : ForwardOutcome, o₁ = o₂ →
      translateChat o₁ = translateChat o₂ ∧ translateTts o₁ = translateTts o₂) ∧
    (∀ os os₂ : List ForwardOutcome,
      processChat (os ++ os₂) = processChat os ++ processChat os₂ ∧
      processTts (os ++ os₂) = processTts os ++ processTts os₂) ∧
    (∀ (o : ForwardOutcome) (n : Nat),
      processChat (List.replicate n o) = List.replicate n (translateChat o) ∧
      processTts (List.replicate n o) = List.replicate n (translateTts o)) := by
  refine ⟨fun o₁ o₂ h => by rw [h]; exact ⟨rfl, rfl⟩, fun os os₂ => ⟨?_, ?_⟩, fun o n => ⟨?_, ?_⟩⟩ <;>
    simp [processChat, processTts]

/-- Closed instance of translator_pure_stateless: two runs on the same concrete outcome
produce the same response. -/
theorem translator_pure_stateless_witness :
    translateChat (.reply 200 none [1, 2, 3]) = translateChat (.reply 200 none [1, 2, 3]) :=
  (translator_pure_stateless.1 (.reply 200 none [1, 2, 3]) (.reply 200 none [1, 2, 3]) rfl).1

/-- Claim C6: serializing then deserializing ChatCompletionRequest, TtsRequest
(SpeechRequest), and ErrorResponse is lossless for every value and every field
combination, including absent optional fields. -/
theorem serde_roundtrip_lossless :
    ∀ (c : ChatCompletionRequest) (t : TtsRequest) (e : ErrorResponse),
      ChatCompletionRequest.fromJson c.toJson = some c ∧
      TtsRequest.fromJson t.toJson = some t ∧
      ErrorResponse.fromJson e.toJson = some e :=
  fun c t e => ⟨chatRequest_roundtrip c, ttsRequest_roundtrip t, errorResponse_roundtrip e⟩

/-- Claim C7: a chat request with an empty messages list is accepted and forwarded
unmodified: the body sent to the backend is exactly the serde serialization of the
request (whose messages field is the empty array), the target is the resolved chat
target, and the handler completes normally on every forwarding outcome — no validation
or rejection branch exists. -/
theorem empty_messages_accepted (req : ChatCompletionRequest) (h : req.messages = []) :
    chatForwardBody req = req.toJson ∧
    req.toJson.getField "messages" = some (.arr []) ∧
    chatForwardTarget req = get_llm_target req.model ∧
    ∀ outcome, run_handle_chat true req outcome = .ok (translateChat outcome) := by
  obtain ⟨mdl, msgs⟩ := req
  cases h
  exact ⟨rfl, rfl, rfl, fun _ => rfl⟩

/-- Closed instance of empty_messages_accepted at a concrete empty-message request. -/
theorem empty_messages_accepted_witness :
    chatForwardBody ⟨"qwen3-8b-instruct", []⟩
      = ChatCompletionRequest.toJson ⟨"qwen3-8b-instruct", []⟩ :=
  (empty_messages_accepted ⟨"qwen3-8b-instruct", []⟩ rfl).1

/-- Claim C8: under the precondition that the shared HTTP client was initialized once at
startup, both handlers are total and never panic: every run returns ok with the
translated response, for every decoded request and every forwarding outcome, so no
transport failure or other fault propagates out of a handler. -/
theorem handlers_never_panic (clientInitialized : Bool) (h : clientInitialized = true) :
    ∀ (creq : ChatCompletionRequest) (treq : TtsRequest) (outcome : ForwardOutcome),
      run_handle_chat clientInitialized creq outcome = .ok (handle_chat creq outcome) ∧
      run_handle_tts clientInitialized treq outcome = .ok (handle_tts treq outcome) := by
  subst h
  exact fun _ _ _ => ⟨rfl, rfl⟩

/-- Closed instance of handlers_never_panic at concrete inputs. -/
theorem handlers_never_panic_witness :
    run_handle_chat true ⟨"m", []⟩ (.transportError "boom")
      = .ok (handle_chat ⟨"m", []⟩ (.transportError "boom")) :=
  (handlers_never_panic true rfl ⟨"m", []⟩ ⟨"hi", none, none⟩ (.transportError "boom")).1

/-- Claim C9: the tts-node responds 200 with Content-Type audio/wav and the generated
audio bytes when the requested format is "wav" or absent (absent defaults to "wav"), and
it responds 400 exactly when an explicit format other than "wav" was requested. -/
theorem tts_node_format_dispatch :
    ∀ req : TtsRequest,
      ((req.format = none ∨ req.format = some "wav") →
        tts_handler req = ⟨200, "audio/wav", .audioWav⟩) ∧
      ((tts_handler req).status = 400 ↔ ∃ f, req.format = some f ∧ f ≠ "wav") := by
  intro req
  obtain ⟨i, v, f⟩ := req
  cases f with
  | none => simp [tts_handler]
  | some s =>
    by_cases hs : s = "wav" <;> simp [tts_handler, hs]

/-- Closed instance of tts_node_format_dispatch: an explicit "wav" request gets 200
audio/wav, and a concrete "mp3" request is exactly the 400 case. -/
theorem tts_node_format_dispatch_witness :
    tts_handler ⟨"hello", some "en_US", some "wav"⟩ = ⟨200, "audio/wav", .audioWav⟩ ∧
    (tts_handler ⟨"hello", none, some "mp3"⟩).status = 400 :=
  ⟨(tts_node_format_dispatch ⟨"hello", some "en_US", some "wav"⟩).1 (Or.inr rfl),
   (tts_node_format_dispatch ⟨"hello", none, some "mp3"⟩).2.mpr ⟨"mp3", rfl, by decide⟩⟩

/-- Claim C10: find_last_user_message returns the last message in the list whose role is
"user" when one exists (formally, the last element of the user-role filtered list), and
the fixed fallback message with content "(no user message found)" otherwise; in every
case the returned message's role is "user". The embedding is a pure function of the
list, so the input is never modified. -/
theorem find_last_user_message_spec :
    ∀ messages : List ChatMessage,
      (find_last_user_message messages).role = "user" ∧
      find_last_user_message messages
        = ((messages.filter (fun m => m.role == "user")).getLast?).getD fallbackMessage ∧
      ((∀ m ∈ messages, m.role ≠ "user") →
        find_last_user_message messages = fallbackMessage) := by
  intro messages
  refine ⟨?_, ?_, ?_⟩
  · unfold find_last_user_message
    cases hf : messages.reverse.find? (fun m => m.role == "user") with
    | none => rfl
    | some m =>
      have hm : m.role = "user" := by simpa using List.find?_some hf
      simp [hm]
  · unfold find_last_user_message
    rw [find?_reverse_eq_getLast?_filter]
  · intro hall
    unfold find_last_user_message
    have hnone : messages.reverse.find? (fun m => m.role == "user") = none := by
      rw [List.find?_eq_none]
      intro x hx
      simp only [beq_iff_eq]
      exact hall x (List.mem_reverse.mp hx)
    rw [hnone]
    rfl

/-- Closed instance of find_last_user_message_spec: a list with no user-role message
yields the fallback. -/
theorem find_last_user_message_witness :
    find_last_user_message [⟨"system", "You are helpful"⟩] = fallbackMessage :=
  (find_last_user_message_spec [⟨"system", "You are helpful"⟩]).2.2 (by decide)

end AiStack
